import Mathlib

/-!
# Verification of the customer-service automation pipeline

A shallow embedding of the decision-making core of the repository
(`server/services/auto-responder.ts` and
`server/services/vector-embeddings-proper.ts`), together with theorems
settling the specification claims about it.

Modelling conventions:
* JavaScript numbers are modelled as `ℚ` (confidences, sentiment scores,
  similarities); `Math.sqrt` is an abstract parameter where it occurs.
* Fallible external calls (OpenAI, Amazon Comprehend, storage, SMTP) are
  oracle parameters of type `Except Unit _`; `.error` models a thrown
  exception caught (or not) exactly where the source catches it.
* The persistent stores (emails, escalation queue, approval queue,
  activity log) are an explicit `Store` value threaded through the
  pipeline; customer-facing delivery attempts are counted in it.
* JS regular-expression tests and `String.prototype` operations used by
  the source are implemented over `List Char` below.
-/

namespace CSAuto

/-! ## String utilities mirroring the JavaScript operations -/

/-- `needle` occurs as a contiguous substring of `hay`
(JS `String.prototype.includes` / an unanchored regex literal). -/
def containsSub (needle : List Char) : List Char → Bool
  | [] => needle.isEmpty
  | c :: rest => needle.isPrefixOf (c :: rest) || containsSub needle rest

/-- `String` version of `containsSub`. -/
def containsStr (needle hay : String) : Bool :=
  containsSub needle.data hay.data

/-- JS regex `/user\d+/` on an (already lowercased) character list: the
letters `user` immediately followed by at least one digit. -/
def matchesUserDigit : List Char → Bool
  | [] => false
  | c :: rest =>
    (['u', 's', 'e', 'r'].isPrefixOf (c :: rest) &&
      (match (c :: rest).drop 4 with
        | d :: _ => d.isDigit
        | [] => false)) || matchesUserDigit rest

/-- Lowercased character list of a string (JS case-insensitive matching of
the ASCII-only patterns in the source). -/
def lowerChars (s : String) : List Char :=
  s.data.map Char.toLower

/-- JS `s.split(/\s+/)`: split at maximal whitespace runs; a leading run
contributes a leading empty string, a trailing run a trailing one, and the
empty string yields `[""]`. -/
def jsSplitWs (s : String) : List String :=
  go s.data []
where
  go : List Char → List Char → List String
    | [], cur => [String.mk cur.reverse]
    | c :: rest, cur =>
      if c.isWhitespace then
        String.mk cur.reverse :: go (rest.dropWhile Char.isWhitespace) []
      else
        go rest (c :: cur)
  termination_by cs _ => cs.length
  decreasing_by
    · simp only [List.length_cons]
      exact Nat.lt_succ_of_le (List.Sublist.length_le (List.dropWhile_sublist _))
    · simp

/-! ## Data model (`auto-responder.ts`) -/

/-- Priority levels `low | medium | high | urgent`. -/
inductive Priority
  | low
  | medium
  | high
  | urgent
deriving DecidableEq, Repr

/-- `ClassificationResult` (auto-responder.ts lines 13-19). -/
structure ClassificationResult where
  classification : String
  confidence : ℚ
  reasoning : String
  priority : Option Priority
  priorityReasoning : Option String
deriving DecidableEq, Repr

/-- Raw JSON object parsed from the fallback OpenAI completion
(auto-responder.ts line 140); every field may be absent. -/
structure RawClassification where
  classification : Option String := none
  confidence : Option ℚ := none
  reasoning : Option String := none
  priority : Option Priority := none
  priorityReasoning : Option String := none
deriving DecidableEq, Repr

/-- Sentiment labels produced by the sentiment oracle. -/
inductive SentimentLabel
  | NEGATIVE
  | POSITIVE
  | NEUTRAL
  | MIXED
deriving DecidableEq, Repr

/-- Result of `sentimentAnalysisService.analyzeSentiment`; `negScore` is
`scores.negative` and may be absent (the source reads it as
`scores.negative || 0`). -/
structure SentimentResult where
  sentiment : SentimentLabel
  negScore : Option ℚ
  confidence : Option ℚ
deriving DecidableEq, Repr

/-- An auto-responder rule row (`storage.getAutoResponderRules`). -/
structure Rule where
  id : String
  name : String
  classification : String
  isActive : Bool
  template : String
deriving DecidableEq, Repr

/-- System settings row; `automationApprovalRequired` may be unset. -/
structure Settings where
  automationApprovalRequired : Option Bool
deriving DecidableEq, Repr

/-- Input of `processIncomingEmail` (auto-responder.ts lines 187-193). -/
structure EmailInput where
  fromEmail : String
  toEmail : String
  subject : String
  body : String
  messageId : Option String
deriving DecidableEq, Repr

/-- Message lifecycle status values written by the pipeline. -/
inductive EmailStatus
  | processing
  | resolved
  | awaiting_approval
  | escalated
deriving DecidableEq, Repr

/-- A stored Message record (the `emails` table as touched by the
pipeline). -/
structure EmailRecord where
  id : Nat
  fromEmail : String
  toEmail : String
  subject : String
  body : String
  messageId : Option String
  status : EmailStatus
  classification : Option String
  confidence : Option ℚ
  escalationReason : Option String
  isResponded : Bool
deriving DecidableEq, Repr

/-- An escalation-queue row (`storage.createEscalationQueue`). -/
structure EscalationRecord where
  emailId : Nat
  priority : Priority
  reason : String
  status : String
deriving DecidableEq, Repr

/-- The persistent stores observable from the pipeline, plus a counter of
customer-facing delivery attempts (`emailRoutingService.sendEmail`
invocations). -/
structure Store where
  emails : List EmailRecord
  escalations : List EscalationRecord
  approvalItems : Nat
  activityLogs : List String
  deliveryAttempts : Nat
deriving DecidableEq, Repr

/-- The empty store. -/
def Store.empty : Store :=
  { emails := [], escalations := [], approvalItems := 0,
    activityLogs := [], deliveryAttempts := 0 }

/-- `ProcessedEmail` (auto-responder.ts lines 21-29). -/
structure ProcessedEmail where
  id : Nat
  classification : String
  confidence : ℚ
  autoResponseSent : Bool
  escalated : Bool
  ruleUsed : Option String
  awaitingApproval : Option Bool
deriving DecidableEq, Repr

/-- Outcome of one `processIncomingEmail` invocation: a returned
`ProcessedEmail`, or an uncaught exception. -/
inductive RunOutcome
  | completed (result : ProcessedEmail)
  | threw (msg : String)
deriving DecidableEq, Repr

/-- Result of `contentSafetyService.validateResponse`. -/
structure SafetyValidation where
  approved : Bool
  blockReason : Option String
deriving DecidableEq, Repr

/-- Result of `enhancedPromoRefundService.processEnhancedPromoRefund`. -/
structure PromoOutcome where
  success : Bool
  shouldEscalate : Bool
deriving DecidableEq, Repr

/-- The external collaborators consumed by one pipeline run, as oracles:
answers of the classification, sentiment, storage, content-safety and
delivery services, and the boolean outcomes of the category-specific
agent services that live outside the provided sources. -/
structure Env where
  grounded : Except Unit ClassificationResult
  fallback : Except Unit RawClassification
  sentiment : Except Unit SentimentResult
  rules : List Rule
  settings : Option Settings
  safety : Except Unit SafetyValidation
  delivery : Except Unit Bool
  enhancedPromo : PromoOutcome
  promoLegacySuccess : Bool
  orderCancelSuccess : Bool
  addressChangeSuccess : Bool
deriving Repr

/-! ## Auto-responder service (`auto-responder.ts`) -/

/-- JS `x || d` on an optional string (empty string is falsy). -/
def jsOrStr (o : Option String) (d : String) : String :=
  match o with
  | some s => if s = "" then d else s
  | none => d

/-- JS `x || d` on an optional number (`0` is falsy). -/
def jsOrQ (o : Option ℚ) (d : ℚ) : ℚ :=
  match o with
  | some v => if v = 0 then d else v
  | none => d

/-- The degraded classification returned when the underlying reasoning
call throws (auto-responder.ts lines 149-158). -/
def degradedClassification : ClassificationResult :=
  { classification := "general", confidence := 30,
    reasoning := "Classification failed, defaulting to general",
    priority := some .medium,
    priorityReasoning := some "Default priority due to classification failure" }

/-- `classifyEmail` (auto-responder.ts lines 36-159).  With a `userId`
the grounded path is used; otherwise the raw OpenAI fallback, whose JSON
fields are defaulted and whose confidence is clamped to `[0, 100]`.  The
whole body is wrapped in `try/catch`: a throw on either path yields
`degradedClassification`. -/
def classifyEmail (userId : Option String)
    (grounded : Except Unit ClassificationResult)
    (fallback : Except Unit RawClassification) : ClassificationResult :=
  match userId with
  | some _ =>
    match grounded with
    | .ok g => { g with reasoning := "Vector-enhanced: " ++ g.reasoning }
    | .error _ => degradedClassification
  | none =>
    match fallback with
    | .ok raw =>
      { classification := jsOrStr raw.classification "general",
        confidence := max 0 (min 100 (jsOrQ raw.confidence 50)),
        reasoning := jsOrStr raw.reasoning "AI classification result",
        priority := some (raw.priority.getD .medium),
        priorityReasoning :=
          some (jsOrStr raw.priorityReasoning "Standard priority assignment") }
    | .error _ => degradedClassification

/-- `findMatchingRule` (auto-responder.ts lines 164-182): first active
rule with the exact classification; if none and confidence < 70, first
active `general` rule. -/
def findMatchingRule (rules : List Rule) (classification : String)
    (confidence : ℚ) : Option Rule :=
  match rules.find? (fun r => r.classification == classification && r.isActive) with
  | some r => some r
  | none =>
    if confidence < 70 then
      rules.find? (fun r => r.classification == "general" && r.isActive)
    else
      none

/-- The sentiment-escalation check of `processIncomingEmail`
(auto-responder.ts lines 229-254): returns the `sentimentEscalation` flag
and the `sentimentReason` string; a throw of the sentiment service is
caught and leaves both at their initial values. -/
def sentimentEscalationOf : Except Unit SentimentResult → Bool × String
  | .error _ => (false, "")
  | .ok s =>
    if s.sentiment = .NEGATIVE then
      let negativeScore := jsOrQ s.negScore 0
      let sentimentConfidence := jsOrQ s.confidence 0
      if negativeScore > 75 ∧ sentimentConfidence > 90 then
        (true, "Very angry customer detected (" ++ toString negativeScore ++
          "% negative sentiment with " ++ toString sentimentConfidence ++
          "% confidence)")
      else if negativeScore > 85 ∧ sentimentConfidence > 80 then
        (true, "Highly frustrated customer detected (" ++ toString negativeScore ++
          "% negative sentiment)")
      else (false, "")
    else (false, "")

/-- Update the stored email record with the given id. -/
def updateEmailRecord (emails : List EmailRecord) (id : Nat)
    (f : EmailRecord → EmailRecord) : List EmailRecord :=
  emails.map (fun r => if r.id = id then f r else r)

/-- `isValidEmailForProduction` (auto-responder.ts lines 801-817): false
iff the address matches one of the blocked test/demo/no-reply patterns
(all tested case-insensitively). -/
def isValidEmailForProduction (email : String) : Bool :=
  let l := lowerChars email
  !( "test".data.isPrefixOf l ||
     "demo".data.isPrefixOf l ||
     List.isSuffixOf "example.com".data l ||
     List.isSuffixOf "test.com".data l ||
     List.isSuffixOf ".test".data l ||
     matchesUserDigit l ||
     containsSub "demo_".data l ||
     containsSub "+test".data l ||
     containsSub "noreply".data l ||
     containsSub "donotreply".data l)

/-- `sendEmpathicAutoResponse` (auto-responder.ts lines 822-855),
returning the boolean result together with the number of
`emailRoutingService.sendEmail` invocations (delivery attempts).  The
recipient-address check runs first, then content safety; a throw of
either service is caught and yields `false`. -/
def sendEmpathicAutoResponse (safety : Except Unit SafetyValidation)
    (delivery : Except Unit Bool) (customerEmail : String) : Bool × Nat :=
  if isValidEmailForProduction customerEmail = false then (false, 0)
  else
    match safety with
    | .error _ => (false, 0)
    | .ok v =>
      if v.approved = false then (false, 0)
      else
        match delivery with
        | .error _ => (false, 1)
        | .ok ok => (ok, 1)

/-- `escalateEmail` (auto-responder.ts lines 922-975): derives the reason
(defaulting to the low-confidence text) and priority, appends an
escalation-queue row, marks the email `escalated` and logs the
activity. -/
def escalateEmail (emailId : Nat) (classification : ClassificationResult)
    (reason : Option String) (store : Store) : RunOutcome × Store :=
  let escalationReason :=
    match reason with
    | some r => r
    | none =>
      "Low confidence classification (" ++ toString classification.confidence ++
        "%) or complex inquiry requiring human review"
  let priority :=
    match classification.priority with
    | some p => p
    | none => if classification.confidence < 40 then .high else .medium
  let store :=
    { store with
      escalations := store.escalations ++
        [{ emailId := emailId, priority := priority,
           reason := escalationReason, status := "pending" }],
      emails := updateEmailRecord store.emails emailId (fun r =>
        { r with status := .escalated, escalationReason := some escalationReason }),
      activityLogs := store.activityLogs ++
        ["Escalated to human: Email escalated: " ++ escalationReason] }
  (RunOutcome.completed
    { id := emailId, classification := classification.classification,
      confidence := classification.confidence, autoResponseSent := false,
      escalated := true, ruleUsed := none, awaitingApproval := none }, store)

/-- `processIncomingEmail` (auto-responder.ts lines 187-465).  The email
is stored with status `processing` unconditionally (no lookup by
`messageId` precedes it); thread linking failures are swallowed; then
classification, the sentiment-escalation check, and the routing decision
follow the order of the source.

In the approval-required branch the source builds the `metadata` of the
approval item from the identifiers `responseContext.orderData`,
`responseContext.cancellationData`, `responseContext.promoRefundData`
and `responseContext.productData` (lines 320-323), but `responseContext`
is not in scope in `processIncomingEmail` (it is a local of
`generateProposedResponse`): evaluating the object literal raises a
`ReferenceError` before the approval item is stored and before the
status update to `awaiting_approval`, so that branch is embedded as a
`threw` outcome with the store unchanged from that point. -/
def processIncomingEmail (env : Env) (userId : String)
    (emailData : EmailInput) (store : Store) : RunOutcome × Store :=
  let emailId := store.emails.length
  let store :=
    { store with
      emails := store.emails ++
        [({ id := emailId, fromEmail := emailData.fromEmail,
            toEmail := emailData.toEmail, subject := emailData.subject,
            body := emailData.body, messageId := emailData.messageId,
            status := .processing, classification := none, confidence := none,
            escalationReason := none, isResponded := false } : EmailRecord)] }
  let classification := classifyEmail (some userId) env.grounded env.fallback
  let se := sentimentEscalationOf env.sentiment
  let sentimentEscalation := se.1
  let sentimentReason := se.2
  let store :=
    { store with
      emails := updateEmailRecord store.emails emailId (fun r =>
        { r with classification := some classification.classification,
                 confidence := some classification.confidence }) }
  if classification.confidence < 60 ∨
      classification.classification = "escalation" ∨
      sentimentEscalation = true then
    let escalationReason : Option String :=
      if sentimentEscalation then
        some ("Negative sentiment detected - " ++ sentimentReason)
      else none
    let escalationClassification :=
      if sentimentEscalation then
        { classification with
          priority :=
            some (if containsStr "Very angry" sentimentReason then
                Priority.urgent
              else Priority.high),
          priorityReasoning :=
            some ("Escalated due to negative sentiment: " ++ sentimentReason) }
      else classification
    escalateEmail emailId escalationClassification escalationReason store
  else
    match findMatchingRule env.rules classification.classification
        classification.confidence with
    | none =>
      escalateEmail emailId classification
        (some "No matching auto-responder rule") store
    | some rule =>
      let approvalRequired :=
        (env.settings.bind (fun s => s.automationApprovalRequired)).getD true
      if approvalRequired then
        (RunOutcome.threw "ReferenceError: responseContext is not defined", store)
      else
        let sendPair :=
          if classification.classification = "promo_refund" then
            (if env.enhancedPromo.success then true
             else if env.enhancedPromo.shouldEscalate then env.promoLegacySuccess
             else false, 0)
          else if classification.classification = "order_cancellation" then
            (env.orderCancelSuccess, 0)
          else if classification.classification = "address_change" then
            (env.addressChangeSuccess, 0)
          else
            sendEmpathicAutoResponse env.safety env.delivery emailData.fromEmail
        let store :=
          { store with deliveryAttempts := store.deliveryAttempts + sendPair.2 }
        if sendPair.1 then
          let store :=
            { store with
              emails := updateEmailRecord store.emails emailId (fun r =>
                { r with status := .resolved, isResponded := true }),
              activityLogs := store.activityLogs ++ ["Sent automated reply"] }
          (RunOutcome.completed
            { id := emailId, classification := classification.classification,
              confidence := classification.confidence, autoResponseSent := true,
              escalated := false, ruleUsed := some rule.name,
              awaitingApproval := none }, store)
        else
          escalateEmail emailId classification
            (some "Failed to send auto-response") store

/-- `calculateSentimentAwareConfidence` (auto-responder.ts lines
766-799): the sentiment-aware adjustment of a handler confidence.  A
throw of the sentiment service is caught and the base confidence is
returned unchanged; otherwise the adjustment is applied and the result
clamped to `[10, 95]` and rounded (JS `Math.round`). -/
def calculateSentimentAwareConfidence (baseConfidence : ℚ)
    (sentiment : Except Unit SentimentResult) : ℚ :=
  match sentiment with
  | .error _ => baseConfidence
  | .ok s =>
    let negativeScore := jsOrQ s.negScore 0
    let sentimentConfidence := jsOrQ s.confidence 0
    let adj1 : ℚ :=
      if s.sentiment = .NEGATIVE then
        if negativeScore > 75 ∧ sentimentConfidence > 90 then -25
        else if negativeScore > 60 ∧ sentimentConfidence > 80 then -15
        else if negativeScore > 45 ∧ sentimentConfidence > 70 then -8
        else 0
      else 0
    let adj2 : ℚ :=
      if s.sentiment = .POSITIVE ∧ sentimentConfidence > 80 then 5 else adj1
    let adjusted := max 10 (min 95 (baseConfidence + adj2))
    ((⌊adjusted + 1 / 2⌋ : ℤ) : ℚ)

/-! ## Vector embeddings service (`vector-embeddings-proper.ts`) -/

/-- The three `SIMILARITY_THRESHOLDS` fields
(vector-embeddings-proper.ts lines 14-18). -/
structure Thresholds where
  HIGH_QUALITY : ℚ
  BALANCED : ℚ
  EXPLORATORY : ℚ
deriving DecidableEq, Repr

/-- `SIMILARITY_THRESHOLDS`: 0.75 / 0.70 / 0.65 (written with `mkRat` to
keep the rationals kernel-computable). -/
def SIMILARITY_THRESHOLDS : Thresholds :=
  { HIGH_QUALITY := mkRat 75 100, BALANCED := mkRat 70 100,
    EXPLORATORY := mkRat 65 100 }

/-- The quality levels accepted by `semanticSearch`. -/
inductive QualityLevel
  | high
  | balanced
  | exploratory
deriving DecidableEq, Repr

/-- Threshold selection (vector-embeddings-proper.ts lines 108-111). -/
def thresholdFor (qualityLevel : QualityLevel) : ℚ :=
  match qualityLevel with
  | .high => SIMILARITY_THRESHOLDS.HIGH_QUALITY
  | .exploratory => SIMILARITY_THRESHOLDS.EXPLORATORY
  | .balanced => SIMILARITY_THRESHOLDS.BALANCED

/-- `chunkContent` (vector-embeddings-proper.ts lines 80-92) with explicit
chunk size and overlap.  The `for` loop of the source advances `i` by
`chunkSize - overlap`; the fuel argument `words.length` bounds it (the
loop performs at most that many iterations for the default arguments,
whose step is 462 ≥ 1). -/
def chunkContent (content : String) (chunkSize overlap : Nat) : List String :=
  let words := jsSplitWs content
  go words (chunkSize - overlap) chunkSize 0 words.length
where
  go (words : List String) (step chunkSize i : Nat) : Nat → List String
    | 0 => []
    | fuel + 1 =>
      if i < words.length then
        let chunk := " ".intercalate ((words.drop i).take chunkSize)
        if 50 < chunk.trim.length then
          chunk.trim :: go words step chunkSize (i + step) fuel
        else
          go words step chunkSize (i + step) fuel
      else []

/-- `chunkContent` at the default arguments of the source
(`chunkSize = 512`, `overlap = 50`). -/
def chunkContentDefault (content : String) : List String :=
  chunkContent content 512 50

/-- A training-source row (`storage.getTrainingUrls`). -/
structure TrainingUrl where
  url : String
  status : String
  crawledContent : Option String
deriving DecidableEq, Repr

/-- One entry of the `results` array of `semanticSearch`. -/
structure SearchResult where
  content : String
  url : String
  similarity : ℚ
  chunk : Option String
deriving DecidableEq, Repr

/-- The value returned by `semanticSearch` (vector-embeddings-proper.ts
lines 97-106). -/
structure SearchOutput where
  results : List SearchResult
  threshold : ℚ
  totalSources : Nat
deriving DecidableEq, Repr

/-- The best-matching-chunk loop (vector-embeddings-proper.ts lines
153-165): fold over the chunks keeping the strictly best similarity,
starting from `(0, "")`.  `sim` abstracts `generateEmbedding` of the
chunk followed by `calculateCosineSimilarity` against the fixed query
embedding. -/
def bestChunkSim (sim : String → ℚ) (chunks : List String) : ℚ × String :=
  chunks.foldl
    (fun best chunk =>
      let s := sim chunk
      if s > best.1 then (s, chunk) else best)
    (0, "")

/-- Descending insertion by `similarity`. -/
def insertDesc (x : SearchResult) : List SearchResult → List SearchResult
  | [] => [x]
  | y :: ys => if y.similarity ≤ x.similarity then x :: y :: ys else y :: insertDesc x ys

/-- `results.sort((a, b) => b.similarity - a.similarity)`
(vector-embeddings-proper.ts line 186): sort by descending similarity. -/
def sortBySimilarityDesc (l : List SearchResult) : List SearchResult :=
  l.foldr insertDesc []

/-- The body of the per-source loop of `semanticSearch`
(vector-embeddings-proper.ts lines 144-183): chunk the source (contents
of more than 1000 characters only), take the best chunk similarity, and
keep the source iff it is `≥` the threshold. -/
def searchFoldStep (sim : String → ℚ) (threshold : ℚ)
    (acc : List SearchResult) (u : TrainingUrl) : List SearchResult :=
  match u.crawledContent with
  | none => acc
  | some content =>
    let chunks :=
      if 1000 < content.length then chunkContentDefault content
      else [content]
    let best := bestChunkSim sim chunks
    if best.1 ≥ threshold then
      acc ++
        [{ content := content, url := u.url, similarity := best.1,
           chunk := if best.2 ≠ content then some best.2 else none }]
    else acc

/-- `semanticSearch` (vector-embeddings-proper.ts lines 97-200).
`sim` is the per-chunk similarity oracle; `trainingUrls = none` models a
throw of `storage.getTrainingUrls` (caught by the outer `try/catch`,
which returns the empty result).  Sources are filtered to completed
crawls with more than 100 characters; each source contributes its best
chunk similarity; a source is kept iff that best similarity is `≥` the
threshold; the kept sources are sorted by descending similarity and the
top 5 returned. -/
def semanticSearch (sim : String → ℚ) (trainingUrls : Option (List TrainingUrl))
    (qualityLevel : QualityLevel) : SearchOutput :=
  let threshold := thresholdFor qualityLevel
  match trainingUrls with
  | none => { results := [], threshold := threshold, totalSources := 0 }
  | some urls =>
    if urls.length = 0 then
      { results := [], threshold := threshold, totalSources := 0 }
    else
      let completedUrls := urls.filter (fun u =>
        u.status == "completed" &&
          (match u.crawledContent with
            | some c => 100 < c.length
            | none => false))
      if completedUrls.length = 0 then
        { results := [], threshold := threshold, totalSources := 0 }
      else
        let results := completedUrls.foldl (searchFoldStep sim threshold) []
        { results := (sortBySimilarityDesc results).take 5,
          threshold := threshold, totalSources := completedUrls.length }

/-- `semanticSearch` at the default quality level of the source
(`balanced`). -/
def semanticSearchDefault (sim : String → ℚ)
    (trainingUrls : Option (List TrainingUrl)) : SearchOutput :=
  semanticSearch sim trainingUrls .balanced

/-- Modelled from the spec: the public result of the Grounding Engine carries a
boolean `hasGroundedKnowledge` alongside the accepted sources.  The
wrapper that produces the flag (`hallucination-prevention.ts`) is not
among the provided sources; per the spec the flag reports whether any
source passed the similarity threshold. -/
structure GroundedSearch where
  results : List SearchResult
  threshold : ℚ
  totalSources : Nat
  hasGroundedKnowledge : Bool
deriving DecidableEq, Repr

/-- Modelled from the spec: attach `hasGroundedKnowledge` to the result of
`semanticSearch` (true iff at least one source was accepted). -/
def semanticSearchGrounded (sim : String → ℚ)
    (trainingUrls : Option (List TrainingUrl))
    (qualityLevel : QualityLevel) : GroundedSearch :=
  let out := semanticSearch sim trainingUrls qualityLevel
  { results := out.results, threshold := out.threshold,
    totalSources := out.totalSources,
    hasGroundedKnowledge := !out.results.isEmpty }

/-! ## Cosine similarity (`vector-embeddings-proper.ts` lines 55-74) -/

/-- The dot-product accumulation of the loop in `calculateCosineSimilarity`. -/
def dotProduct (a b : List ℚ) : ℚ :=
  (a.zip b).foldl (fun acc p => acc + p.1 * p.2) 0

/-- The squared-norm accumulation of the loop in `calculateCosineSimilarity`. -/
def sumSquares (a : List ℚ) : ℚ :=
  a.foldl (fun acc x => acc + x * x) 0

/-- `calculateCosineSimilarity` (vector-embeddings-proper.ts lines
55-74).  `sqrt` abstracts JS `Math.sqrt`.  Mismatched dimensions throw;
a zero `normA` or `normB` yields `0` instead of a division by zero. -/
def calculateCosineSimilarity (sqrt : ℚ → ℚ) (vectorA vectorB : List ℚ) :
    Except String ℚ :=
  if vectorA.length ≠ vectorB.length then
    .error "Vector dimensions must match"
  else
    let d := dotProduct vectorA vectorB
    let normA := sqrt (sumSquares vectorA)
    let normB := sqrt (sumSquares vectorB)
    if normA = 0 ∨ normB = 0 then .ok 0
    else .ok (d / (normA * normB))

/-! ## Spec-side definition for the confidence adjustment (§4.6) -/

/-- The sentiment-aware confidence adjustment as the spec words it, for a
successfully computed sentiment: negative sentiment with score>75 &
confidence>90 subtracts 25; score>60 & confidence>80 subtracts 15;
score>45 & confidence>70 subtracts 8; positive sentiment with
confidence>80 adds 5; the result is clamped to [10, 95] (and rounded). -/
def specSentimentAdjustedConfidence (baseConfidence : ℚ)
    (s : SentimentResult) : ℚ :=
  let negativeScore := jsOrQ s.negScore 0
  let sentimentConfidence := jsOrQ s.confidence 0
  let adjustment : ℚ :=
    match s.sentiment with
    | .NEGATIVE =>
      if negativeScore > 75 ∧ sentimentConfidence > 90 then -25
      else if negativeScore > 60 ∧ sentimentConfidence > 80 then -15
      else if negativeScore > 45 ∧ sentimentConfidence > 70 then -8
      else 0
    | .POSITIVE => if sentimentConfidence > 80 then 5 else 0
    | .NEUTRAL => 0
    | .MIXED => 0
  ((⌊max 10 (min 95 (baseConfidence + adjustment)) + 1 / 2⌋ : ℤ) : ℚ)

/-! ## Helper lemmas -/

lemma containsSub_of_isPrefixOf (n h : List Char)
    (hp : n.isPrefixOf h = true) : containsSub n h = true := by
  cases h with
  | nil =>
    cases n with
    | nil => rfl
    | cons a as => simp [List.isPrefixOf] at hp
  | cons c t => simp [containsSub, hp]

lemma isPrefixOf_append_left (n p r : List Char)
    (hp : n.isPrefixOf p = true) : n.isPrefixOf (p ++ r) = true := by
  have h1 : n <+: p := List.isPrefixOf_iff_prefix.mp hp
  exact List.isPrefixOf_iff_prefix.mpr (h1.trans (p.prefix_append r))

/-- If `needle` is a prefix of `pre` then it occurs in `pre ++ rest`. -/
lemma containsStr_append_left (needle pre rest : String)
    (hp : needle.data.isPrefixOf pre.data = true) :
    containsStr needle (pre ++ rest) = true := by
  unfold containsStr
  rw [String.data_append]
  exact containsSub_of_isPrefixOf _ _ (isPrefixOf_append_left _ _ _ hp)

lemma mem_insertDesc {x y : SearchResult} {l : List SearchResult} :
    x ∈ insertDesc y l ↔ x = y ∨ x ∈ l := by
  induction l with
  | nil => simp [insertDesc]
  | cons z zs ih =>
    by_cases h : z.similarity ≤ y.similarity
    · simp [insertDesc, h]
    · simp [insertDesc, h, ih]
      tauto

lemma pairwise_insertDesc {x : SearchResult} {l : List SearchResult}
    (hl : l.Pairwise (fun a b => b.similarity ≤ a.similarity)) :
    (insertDesc x l).Pairwise (fun a b => b.similarity ≤ a.similarity) := by
  induction l with
  | nil => simp [insertDesc]
  | cons z zs ih =>
    rcases List.pairwise_cons.mp hl with ⟨hz, hzs⟩
    by_cases h : z.similarity ≤ x.similarity
    · rw [show insertDesc x (z :: zs) = x :: z :: zs by simp [insertDesc, h]]
      refine List.pairwise_cons.mpr ⟨?_, hl⟩
      intro b hb
      rcases List.mem_cons.mp hb with rfl | hb
      · exact h
      · exact (hz b hb).trans h
    · rw [show insertDesc x (z :: zs) = z :: insertDesc x zs by simp [insertDesc, h]]
      refine List.pairwise_cons.mpr ⟨?_, ih hzs⟩
      intro b hb
      rcases mem_insertDesc.mp hb with rfl | hb
      · exact le_of_not_le h
      · exact hz b hb

lemma mem_sortBySimilarityDesc {x : SearchResult} {l : List SearchResult} :
    x ∈ sortBySimilarityDesc l ↔ x ∈ l := by
  induction l with
  | nil => simp [sortBySimilarityDesc]
  | cons z zs ih =>
    simp only [sortBySimilarityDesc, List.foldr_cons] at *
    rw [mem_insertDesc, ih]
    simp

lemma pairwise_sortBySimilarityDesc (l : List SearchResult) :
    (sortBySimilarityDesc l).Pairwise (fun a b => b.similarity ≤ a.similarity) := by
  induction l with
  | nil => simp [sortBySimilarityDesc]
  | cons z zs ih =>
    simpa only [sortBySimilarityDesc, List.foldr_cons] using pairwise_insertDesc ih

lemma searchFoldStep_all {sim : String → ℚ} {threshold : ℚ}
    {acc : List SearchResult} {u : TrainingUrl}
    (hacc : ∀ r ∈ acc, threshold ≤ r.similarity) :
    ∀ r ∈ searchFoldStep sim threshold acc u, threshold ≤ r.similarity := by
  intro r hr
  unfold searchFoldStep at hr
  split at hr
  · exact hacc r hr
  · dsimp only at hr
    split at hr
    all_goals
      split at hr
      case isTrue hguard =>
        rcases List.mem_append.mp hr with h | h
        · exact hacc r h
        · rcases List.mem_singleton.mp h with rfl
          simpa using hguard
      case isFalse => exact hacc r hr

lemma foldl_searchFoldStep_all {sim : String → ℚ} {threshold : ℚ}
    (urls : List TrainingUrl) (acc : List SearchResult)
    (hacc : ∀ r ∈ acc, threshold ≤ r.similarity) :
    ∀ r ∈ urls.foldl (searchFoldStep sim threshold) acc,
      threshold ≤ r.similarity := by
  induction urls generalizing acc with
  | nil => simpa using hacc
  | cons u rest ih =>
    intro r hr
    exact ih _ (searchFoldStep_all hacc) r hr

/-! ## Concrete fixtures used by the closed theorems -/

/-- An active `general` auto-responder rule. -/
def ruleGeneral : Rule :=
  { id := "rule-1", name := "General", classification := "general",
    isActive := true, template := "template" }

/-- A confident `general` classification as returned by the grounded
classifier. -/
def classGeneral80 : ClassificationResult :=
  { classification := "general", confidence := 80, reasoning := "clear intent",
    priority := some .medium, priorityReasoning := none }

/-- A neutral sentiment result. -/
def sentNeutral : SentimentResult :=
  { sentiment := .NEUTRAL, negScore := some 0, confidence := some 50 }

/-- A sample incoming email carrying an external message identifier. -/
def emailMsg1 : EmailInput :=
  { fromEmail := "customer@shop.com", toEmail := "support@merchant.com",
    subject := "Order question", body := "Where is my order?",
    messageId := some "msg-1" }

/-- Environment with no stored settings, so the approval-required default
(`?? true`) applies; classification succeeds at confidence 80,
sentiment is neutral, a matching `general` rule exists, content safety
approves and delivery succeeds. -/
def envApproval : Env :=
  { grounded := .ok classGeneral80, fallback := .error (),
    sentiment := .ok sentNeutral, rules := [ruleGeneral], settings := none,
    safety := .ok { approved := true, blockReason := none },
    delivery := .ok true,
    enhancedPromo := { success := false, shouldEscalate := false },
    promoLegacySuccess := false, orderCancelSuccess := false,
    addressChangeSuccess := false }

/-- Same as `envApproval` but with approval explicitly switched off. -/
def envNoApproval : Env :=
  { envApproval with settings := some { automationApprovalRequired := some false } }

/-- Approval off; sentiment labelled `POSITIVE` yet with a negative score
of 90 at confidence 95. -/
def envPositiveLabel : Env :=
  { envNoApproval with
    sentiment := .ok { sentiment := .POSITIVE, negScore := some 90, confidence := some 95 } }

/-- Approval off; `NEGATIVE` sentiment, negative score 90, confidence 95
(the very-angry branch). -/
def envNegUrgent : Env :=
  { envNoApproval with
    sentiment := .ok { sentiment := .NEGATIVE, negScore := some 90, confidence := some 95 } }

/-- Approval off; `NEGATIVE` sentiment, negative score 90, confidence 85
(the highly-frustrated branch). -/
def envNegHigh : Env :=
  { envNoApproval with
    sentiment := .ok { sentiment := .NEGATIVE, negScore := some 90, confidence := some 85 } }

/-- Same as `envApproval` but with no auto-responder rules at all. -/
def envNoRules : Env :=
  { envApproval with rules := [] }

/-- An inactive `general` rule (for the never-matched fixture). -/
def ruleInactiveGeneral : Rule :=
  { id := "rule-2", name := "Inactive", classification := "general",
    isActive := false, template := "t" }

/-! ## Claim theorems -/

/-- C1.  The claim says every execution path of `processIncomingEmail`
— the approval-required branch included — leaves the stored Message in a
terminal status, never `processing`.  The code violates this: in the
approval-required branch the metadata of the approval item references the
out-of-scope identifier `responseContext` (auto-responder.ts lines
320-323), so the branch raises a `ReferenceError` before the status
update to `awaiting_approval`, and the Message stays `processing`.  This
theorem evaluates the pipeline at such an input: classification
`general` at confidence 80, neutral sentiment, a matching active rule,
and the approval-required default in force. -/
theorem C1_approval_branch_leaves_processing :
    (processIncomingEmail envApproval "user-1" emailMsg1 Store.empty).1 =
      RunOutcome.threw "ReferenceError: responseContext is not defined" ∧
    ((processIncomingEmail envApproval "user-1" emailMsg1 Store.empty).2.emails.map
      (fun r => r.status)) = [EmailStatus.processing] := by
  decide

/-- C2 counterexample.  The claim says submitting the same external
message identifier twice creates exactly one Message record and at most
one customer-facing send, because the pipeline checks for an existing
record first.  No such check exists: running `processIncomingEmail`
twice on the identical input (messageId `msg-1`, approval off, safe
deliverable reply) stores two Message records with that identifier and
performs two delivery attempts. -/
theorem C2_duplicate_submission_counterexample :
    (((processIncomingEmail envNoApproval "user-1" emailMsg1
        (processIncomingEmail envNoApproval "user-1" emailMsg1 Store.empty).2).2).emails.filter
      (fun r => r.messageId = some "msg-1")).length = 2 ∧
    ((processIncomingEmail envNoApproval "user-1" emailMsg1
        (processIncomingEmail envNoApproval "user-1" emailMsg1 Store.empty).2).2).deliveryAttempts
      = 2 := by
  decide

/-- C2 amended.  `processIncomingEmail` performs no lookup keyed by the
external message identifier: every invocation unconditionally appends
exactly one new Message record, whatever records (including ones with
the same `messageId`) the store already holds — so a duplicate
submission duplicates the record rather than being skipped. -/
theorem C2_every_run_creates_a_record (env : Env) (userId : String)
    (e : EmailInput) (store : Store) :
    ((processIncomingEmail env userId e store).2).emails.length =
      store.emails.length + 1 := by
  unfold processIncomingEmail
  dsimp only
  repeat' split
  all_goals simp [escalateEmail, updateEmailRecord]

/-- C3 counterexample.  The claim quantifies over every message whose
sentiment assessment has negative score > 85 and confidence > 80, with
no condition on the polarity label of the assessment; the code
additionally requires the label `NEGATIVE` (auto-responder.ts line 234).  With
label `POSITIVE`, negative score 90 and confidence 95 (and a confident
`general` classification, an active rule and approval off) the run does
not escalate: it sends the automated reply and resolves. -/
theorem C3_label_gate_counterexample :
    ((90 : ℚ) > 85 ∧ (95 : ℚ) > 80) ∧
    (processIncomingEmail envPositiveLabel "user-1" emailMsg1 Store.empty).1 =
      RunOutcome.completed
        { id := 0, classification := "general", confidence := 80,
          autoResponseSent := true, escalated := false,
          ruleUsed := some "General", awaitingApproval := none } ∧
    (processIncomingEmail envPositiveLabel "user-1" emailMsg1 Store.empty).2.escalations
      = [] := by
  decide

/-- C3 amended.  For sentiment assessments whose label is `NEGATIVE`,
sentiment escalation triggers exactly when negative score > 75 and
confidence > 90, or negative score > 85 and confidence > 80 (conditions
checked in that order); whenever the label is `NEGATIVE`, the score
exceeds 85 and the confidence exceeds 80, the pipeline escalates with
priority `high` or `urgent` regardless of the classifier output, and
concretely the first branch yields `urgent` (score 90, confidence 95)
and the second `high` (score 90, confidence 85). -/
theorem C3_sentiment_escalation_characterization :
    (∀ s : SentimentResult,
      ((sentimentEscalationOf (Except.ok s)).1 = true ↔
        s.sentiment = SentimentLabel.NEGATIVE ∧
          ((jsOrQ s.negScore 0 > 75 ∧ jsOrQ s.confidence 0 > 90) ∨
            (jsOrQ s.negScore 0 > 85 ∧ jsOrQ s.confidence 0 > 80)))) ∧
    (∀ (env : Env) (userId : String) (e : EmailInput) (store : Store)
        (s : SentimentResult),
      env.sentiment = Except.ok s →
      s.sentiment = SentimentLabel.NEGATIVE →
      jsOrQ s.negScore 0 > 85 →
      jsOrQ s.confidence 0 > 80 →
      ∃ rec : EscalationRecord,
        (processIncomingEmail env userId e store).2.escalations =
          store.escalations ++ [rec] ∧
        (rec.priority = Priority.high ∨ rec.priority = Priority.urgent) ∧
        ∃ p : ProcessedEmail,
          (processIncomingEmail env userId e store).1 = RunOutcome.completed p ∧
          p.escalated = true) ∧
    ((processIncomingEmail envNegUrgent "user-1" emailMsg1 Store.empty).2.escalations.map
      (fun r => r.priority)) = [Priority.urgent] ∧
    ((processIncomingEmail envNegHigh "user-1" emailMsg1 Store.empty).2.escalations.map
      (fun r => r.priority)) = [Priority.high] := by
  refine ⟨?_, ?_, by decide, by decide⟩
  · intro s
    simp only [sentimentEscalationOf]
    by_cases hneg : s.sentiment = SentimentLabel.NEGATIVE
    · by_cases h1 : jsOrQ s.negScore 0 > 75 ∧ jsOrQ s.confidence 0 > 90
      · simp [hneg, h1]
      · by_cases h2 : jsOrQ s.negScore 0 > 85 ∧ jsOrQ s.confidence 0 > 80
        · simp [hneg, h1, h2]
        · simp [hneg, h1, h2]
    · simp [hneg]
  · intro env userId e store s hok hneg h85 h80
    have hpair : ∃ reason, sentimentEscalationOf env.sentiment = (true, reason) := by
      rw [hok]
      simp only [sentimentEscalationOf]
      rw [if_pos hneg]
      by_cases h1 : jsOrQ s.negScore 0 > 75 ∧ jsOrQ s.confidence 0 > 90
      · exact ⟨_, by rw [if_pos h1]⟩
      · exact ⟨_, by rw [if_neg h1, if_pos ⟨h85, h80⟩]⟩
    obtain ⟨reason, hpair⟩ := hpair
    unfold processIncomingEmail
    dsimp only
    rw [hpair]
    dsimp only
    rw [if_pos (Or.inr (Or.inr rfl))]
    rw [if_pos rfl, if_pos rfl]
    unfold escalateEmail
    dsimp only
    refine ⟨_, rfl, ?_, _, rfl, rfl⟩
    by_cases hva : containsStr "Very angry" reason = true
    · simp [hva]
    · simp [hva]

/-- C3 witness: the general escalation statement applied at the concrete
`NEGATIVE` assessment with score 90 and confidence 85, the hypotheses
discharged by evaluation. -/
theorem C3_sentiment_escalation_characterization_witness :
    ∃ rec : EscalationRecord,
      (processIncomingEmail envNegHigh "user-1" emailMsg1 Store.empty).2.escalations =
        (Store.empty).escalations ++ [rec] ∧
      (rec.priority = Priority.high ∨ rec.priority = Priority.urgent) ∧
      ∃ p : ProcessedEmail,
        (processIncomingEmail envNegHigh "user-1" emailMsg1 Store.empty).1 =
          RunOutcome.completed p ∧
        p.escalated = true :=
  C3_sentiment_escalation_characterization.2.1 envNegHigh "user-1" emailMsg1
    Store.empty _ rfl rfl (by decide) (by decide)

/-- C5.  When sentiment did not trigger escalation and the classifier
confidence is below 60 or the category is `escalation`, the pipeline
escalates and the recorded escalation reason mentions low confidence
(the stored reason starts with the text `Low confidence classification`,
auto-responder.ts line 923). -/
theorem C5_low_confidence_escalates (env : Env) (userId : String)
    (e : EmailInput) (store : Store)
    (hsent : (sentimentEscalationOf env.sentiment).1 = false)
    (hlow : (classifyEmail (some userId) env.grounded env.fallback).confidence < 60 ∨
      (classifyEmail (some userId) env.grounded env.fallback).classification = "escalation") :
    ∃ rec : EscalationRecord,
      (processIncomingEmail env userId e store).2.escalations =
        store.escalations ++ [rec] ∧
      containsStr "Low confidence" rec.reason = true ∧
      ∃ p : ProcessedEmail,
        (processIncomingEmail env userId e store).1 = RunOutcome.completed p ∧
        p.escalated = true := by
  have hcond : (classifyEmail (some userId) env.grounded env.fallback).confidence < 60 ∨
      (classifyEmail (some userId) env.grounded env.fallback).classification = "escalation" ∨
      (sentimentEscalationOf env.sentiment).1 = true := by
    rcases hlow with h | h
    · exact Or.inl h
    · exact Or.inr (Or.inl h)
  unfold processIncomingEmail
  dsimp only
  rw [if_pos hcond, hsent]
  rw [if_neg (by simp), if_neg (by simp)]
  unfold escalateEmail
  dsimp only
  refine ⟨_, rfl, ?_, _, rfl, rfl⟩
  rw [String.append_assoc]
  exact containsStr_append_left _ _ _ (by decide)

/-- C5 witness: the theorem applied at a concrete environment whose
grounded classifier fails, yielding the degraded confidence 30 < 60. -/
theorem C5_low_confidence_escalates_witness :
    ∃ rec : EscalationRecord,
      (processIncomingEmail { envApproval with grounded := .error () } "user-1"
          emailMsg1 Store.empty).2.escalations =
        (Store.empty).escalations ++ [rec] ∧
      containsStr "Low confidence" rec.reason = true ∧
      ∃ p : ProcessedEmail,
        (processIncomingEmail { envApproval with grounded := .error () } "user-1"
            emailMsg1 Store.empty).1 = RunOutcome.completed p ∧
        p.escalated = true :=
  C5_low_confidence_escalates { envApproval with grounded := .error () } "user-1"
    emailMsg1 Store.empty (by decide) (Or.inl (by decide))

/-- C6 counterexample.  The claim states the no-rule escalation reason is
the string `no matching rule`; the code uses
`No matching auto-responder rule` (auto-responder.ts line 290), which
does not contain the claimed text even case-insensitively. -/
theorem C6_no_rule_reason_counterexample :
    ((processIncomingEmail envNoRules "user-1" emailMsg1 Store.empty).2.escalations.map
      (fun r => r.reason)) = ["No matching auto-responder rule"] ∧
    ("No matching auto-responder rule" : String) ≠ "no matching rule" ∧
    containsSub "no matching rule".data
      (lowerChars "No matching auto-responder rule") = false := by
  decide

/-- C6 amended.  Rule resolution: a resolved rule is always active and is
either an exact category match or — only when confidence < 70 — the
`general` fallback; when an active exact match exists it is used; when
confidence ≥ 70 and no active exact match exists, no rule resolves;
when no active exact match exists, confidence is below 70 and an active
`general` rule exists, that fallback rule is used; and when no rule
resolves (sentiment quiet, confidence ≥ 60, category not `escalation`)
the pipeline escalates with reason `No matching auto-responder rule`. -/
theorem C6_rule_resolution :
    (∀ (rules : List Rule) (c : String) (conf : ℚ) (r : Rule),
      findMatchingRule rules c conf = some r →
        r.isActive = true ∧
          (r.classification = c ∨ (conf < 70 ∧ r.classification = "general"))) ∧
    (∀ (rules : List Rule) (c : String) (conf : ℚ),
      (∃ r ∈ rules, r.classification = c ∧ r.isActive = true) →
        ∃ r : Rule, findMatchingRule rules c conf = some r ∧
          r.classification = c ∧ r.isActive = true) ∧
    (∀ (rules : List Rule) (c : String) (conf : ℚ),
      70 ≤ conf →
      (∀ r ∈ rules, ¬(r.classification = c ∧ r.isActive = true)) →
        findMatchingRule rules c conf = none) ∧
    (∀ (rules : List Rule) (c : String) (conf : ℚ),
      (∀ r ∈ rules, ¬(r.classification = c ∧ r.isActive = true)) →
      conf < 70 →
      (∃ r ∈ rules, r.classification = "general" ∧ r.isActive = true) →
        ∃ r : Rule, findMatchingRule rules c conf = some r ∧
          r.classification = "general" ∧ r.isActive = true) ∧
    (∀ (env : Env) (userId : String) (e : EmailInput) (store : Store),
      (sentimentEscalationOf env.sentiment).1 = false →
      ¬((classifyEmail (some userId) env.grounded env.fallback).confidence < 60) →
      (classifyEmail (some userId) env.grounded env.fallback).classification ≠ "escalation" →
      findMatchingRule env.rules
        (classifyEmail (some userId) env.grounded env.fallback).classification
        (classifyEmail (some userId) env.grounded env.fallback).confidence = none →
      ∃ rec : EscalationRecord,
        (processIncomingEmail env userId e store).2.escalations =
          store.escalations ++ [rec] ∧
        rec.reason = "No matching auto-responder rule" ∧
        ∃ p : ProcessedEmail,
          (processIncomingEmail env userId e store).1 = RunOutcome.completed p ∧
          p.escalated = true) := by
  refine ⟨?_, ?_, ?_, ?_, ?_⟩
  · intro rules c conf r h
    unfold findMatchingRule at h
    cases hfind : rules.find? (fun r => r.classification == c && r.isActive) with
    | some r0 =>
      rw [hfind] at h
      dsimp only at h
      cases h
      have hp := List.find?_some hfind
      simp only [Bool.and_eq_true, beq_iff_eq] at hp
      exact ⟨hp.2, Or.inl hp.1⟩
    | none =>
      rw [hfind] at h
      dsimp only at h
      by_cases h70 : conf < 70
      · rw [if_pos h70] at h
        have hp := List.find?_some h
        simp only [Bool.and_eq_true, beq_iff_eq] at hp
        exact ⟨hp.2, Or.inr ⟨h70, hp.1⟩⟩
      · rw [if_neg h70] at h
        cases h
  · intro rules c conf hex
    have hsome : (rules.find? (fun r => r.classification == c && r.isActive)).isSome := by
      rw [List.find?_isSome]
      obtain ⟨r, hr, hc, ha⟩ := hex
      exact ⟨r, hr, by simp [hc, ha]⟩
    obtain ⟨r0, hfind⟩ := Option.isSome_iff_exists.mp hsome
    have hp := List.find?_some hfind
    simp only [Bool.and_eq_true, beq_iff_eq] at hp
    refine ⟨r0, ?_, hp.1, hp.2⟩
    unfold findMatchingRule
    rw [hfind]
  · intro rules c conf hconf hnone
    have hfind : rules.find? (fun r => r.classification == c && r.isActive) = none := by
      rw [List.find?_eq_none]
      intro r hr
      simp only [Bool.and_eq_true, beq_iff_eq, not_and]
      intro hc ha
      exact hnone r hr ⟨hc, ha⟩
    unfold findMatchingRule
    rw [hfind, if_neg (not_lt.mpr hconf)]
  · intro rules c conf hnone h70 hex
    have hfind : rules.find? (fun r => r.classification == c && r.isActive) = none := by
      rw [List.find?_eq_none]
      intro r hr
      simp only [Bool.and_eq_true, beq_iff_eq, not_and]
      intro hc ha
      exact hnone r hr ⟨hc, ha⟩
    have hsome : (rules.find? (fun r => r.classification == "general" && r.isActive)).isSome := by
      rw [List.find?_isSome]
      obtain ⟨r, hr, hc, ha⟩ := hex
      exact ⟨r, hr, by simp [hc, ha]⟩
    obtain ⟨r0, hfindg⟩ := Option.isSome_iff_exists.mp hsome
    have hp := List.find?_some hfindg
    simp only [Bool.and_eq_true, beq_iff_eq] at hp
    refine ⟨r0, ?_, hp.1, hp.2⟩
    unfold findMatchingRule
    rw [hfind, if_pos h70, hfindg]
  · intro env userId e store hsent hconf hclass hrule
    unfold processIncomingEmail
    dsimp only
    rw [if_neg (by simp [hsent, hconf, hclass]), hrule]
    unfold escalateEmail
    dsimp only
    exact ⟨_, rfl, rfl, _, rfl, rfl⟩

/-- C6 witness: the no-fallback statement applied at confidence 80 with a
single inactive rule, the fallback-fires statement applied at confidence
50 with an active `general` rule and the unmatched category
`order_status`, and the pipeline statement applied at the rule-less
environment, hypotheses discharged by evaluation. -/
theorem C6_rule_resolution_witness :
    findMatchingRule [ruleInactiveGeneral] "general" 80 = none ∧
    (∃ r : Rule, findMatchingRule [ruleGeneral] "order_status" 50 = some r ∧
      r.classification = "general" ∧ r.isActive = true) ∧
    ∃ rec : EscalationRecord,
      (processIncomingEmail envNoRules "user-1" emailMsg1 Store.empty).2.escalations =
        (Store.empty).escalations ++ [rec] ∧
      rec.reason = "No matching auto-responder rule" ∧
      ∃ p : ProcessedEmail,
        (processIncomingEmail envNoRules "user-1" emailMsg1 Store.empty).1 =
          RunOutcome.completed p ∧
        p.escalated = true :=
  ⟨C6_rule_resolution.2.2.1 _ "general" 80 (by norm_num) (by decide),
   C6_rule_resolution.2.2.2.1 [ruleGeneral] "order_status" 50
     (by decide) (by norm_num) (by decide),
   C6_rule_resolution.2.2.2.2 envNoRules "user-1" emailMsg1 Store.empty
     (by decide) (by decide) (by decide) (by decide)⟩

/-- A 101-character crawled content (long enough to pass the
`length > 100` source filter, short enough to stay unchunked). -/
def scenarioContent69 : String := String.mk (List.replicate 101 'a')

/-- A second 101-character crawled content. -/
def scenarioContent71 : String := String.mk (List.replicate 101 'b')

/-- A completed training source whose content scores similarity 0.69. -/
def urlSim69 : TrainingUrl :=
  { url := "https://source-69", status := "completed",
    crawledContent := some scenarioContent69 }

/-- A completed training source whose content scores similarity 0.71. -/
def urlSim71 : TrainingUrl :=
  { url := "https://source-71", status := "completed",
    crawledContent := some scenarioContent71 }

/-- The similarity oracle of the 0.69 / 0.71 scenario. -/
def scenarioSim : String → ℚ := fun s =>
  if s = scenarioContent69 then mkRat 69 100
  else if s = scenarioContent71 then mkRat 71 100
  else 0

/-- The accepted source of the 0.69 / 0.71 scenario. -/
def resultSeventyOne : SearchResult :=
  { content := scenarioContent71, url := "https://source-71",
    similarity := mkRat 71 100, chunk := none }

lemma semanticSearch_threshold (sim : String → ℚ)
    (urls : Option (List TrainingUrl)) (q : QualityLevel) :
    (semanticSearch sim urls q).threshold = thresholdFor q := by
  unfold semanticSearch
  rcases urls with _ | us
  · rfl
  · dsimp only
    split
    · rfl
    · split
      · rfl
      · rfl

lemma semanticSearch_results_cases (sim : String → ℚ)
    (urls : Option (List TrainingUrl)) (q : QualityLevel) :
    (semanticSearch sim urls q).results = [] ∨
    ∃ l : List SearchResult,
      (∀ r ∈ l, thresholdFor q ≤ r.similarity) ∧
      (semanticSearch sim urls q).results = (sortBySimilarityDesc l).take 5 := by
  unfold semanticSearch
  rcases urls with _ | us
  · exact Or.inl rfl
  · dsimp only
    split
    · exact Or.inl rfl
    · split
      · exact Or.inl rfl
      · exact Or.inr ⟨_, foldl_searchFoldStep_all _ [] (by simp), rfl⟩

set_option maxRecDepth 4000 in
/-- C4.  Every source returned by `semanticSearch` has best per-source
chunk similarity at least the active threshold; at most 5 sources are
returned, in descending similarity order; the threshold tiers are
high = 0.75, balanced = 0.70 (the default quality level) and
exploratory = 0.65; the grounded wrapper carries the
`hasGroundedKnowledge` boolean (true iff a source was accepted); and in
the concrete balanced scenario a source at similarity 0.69 is excluded
while one at 0.71 is returned. -/
theorem C4_semanticSearch_contract :
    (∀ (sim : String → ℚ) (urls : Option (List TrainingUrl)) (q : QualityLevel),
      (∀ r ∈ (semanticSearch sim urls q).results,
        (semanticSearch sim urls q).threshold ≤ r.similarity) ∧
      (semanticSearch sim urls q).results.length ≤ 5 ∧
      (semanticSearch sim urls q).results.Pairwise
        (fun s t => t.similarity ≤ s.similarity) ∧
      (semanticSearch sim urls q).threshold = thresholdFor q ∧
      (semanticSearchGrounded sim urls q).hasGroundedKnowledge =
        !(semanticSearch sim urls q).results.isEmpty ∧
      (semanticSearchGrounded sim urls q).results =
        (semanticSearch sim urls q).results ∧
      semanticSearchDefault sim urls = semanticSearch sim urls QualityLevel.balanced) ∧
    SIMILARITY_THRESHOLDS.HIGH_QUALITY = 3 / 4 ∧
    SIMILARITY_THRESHOLDS.BALANCED = 7 / 10 ∧
    SIMILARITY_THRESHOLDS.EXPLORATORY = 13 / 20 ∧
    ((semanticSearchDefault scenarioSim (some [urlSim69, urlSim71])).results.map
      (fun r => r.url)) = ["https://source-71"] ∧
    (semanticSearchGrounded scenarioSim (some [urlSim69, urlSim71])
      QualityLevel.balanced).hasGroundedKnowledge = true := by
  refine ⟨?_, ?_, ?_, ?_, by decide, by decide⟩
  · intro sim urls q
    refine ⟨?_, ?_, ?_, semanticSearch_threshold sim urls q, rfl, rfl, rfl⟩
    · intro r hr
      rw [semanticSearch_threshold]
      rcases semanticSearch_results_cases sim urls q with h | ⟨l, hl, h⟩
      · rw [h] at hr
        cases hr
      · rw [h] at hr
        exact hl r (mem_sortBySimilarityDesc.mp ((List.take_sublist _ _).subset hr))
    · rcases semanticSearch_results_cases sim urls q with h | ⟨l, hl, h⟩ <;> rw [h]
      · simp
      · exact List.length_take_le _ _
    · rcases semanticSearch_results_cases sim urls q with h | ⟨l, hl, h⟩ <;> rw [h]
      · simp
      · exact (pairwise_sortBySimilarityDesc l).sublist (List.take_sublist _ _)
  · norm_num [SIMILARITY_THRESHOLDS, Rat.mkRat_eq_div]
  · norm_num [SIMILARITY_THRESHOLDS, Rat.mkRat_eq_div]
  · norm_num [SIMILARITY_THRESHOLDS, Rat.mkRat_eq_div]

set_option maxRecDepth 4000 in
/-- C4 witness: the threshold bound applied to the concrete accepted
source of the 0.69 / 0.71 scenario, the membership hypothesis discharged
by evaluation. -/
theorem C4_semanticSearch_contract_witness :
    (semanticSearch scenarioSim (some [urlSim69, urlSim71])
      QualityLevel.balanced).threshold ≤ resultSeventyOne.similarity :=
  (C4_semanticSearch_contract.1 scenarioSim (some [urlSim69, urlSim71])
    QualityLevel.balanced).1 resultSeventyOne (by decide)

/-- C7.  `sendEmpathicAutoResponse` returns `false` with zero delivery
attempts whenever the recipient matches a blocked test/demo/no-reply
pattern or the content-safety validation does not approve (including a
safety-service throw); a delivery attempt implies both checks passed. -/
theorem C7_send_guarded_by_validation :
    ∀ (safety : Except Unit SafetyValidation) (delivery : Except Unit Bool)
      (customerEmail : String),
      (isValidEmailForProduction customerEmail = false →
        sendEmpathicAutoResponse safety delivery customerEmail = (false, 0)) ∧
      (∀ v : SafetyValidation, safety = Except.ok v → v.approved = false →
        sendEmpathicAutoResponse safety delivery customerEmail = (false, 0)) ∧
      (safety = Except.error () →
        sendEmpathicAutoResponse safety delivery customerEmail = (false, 0)) ∧
      (∀ (res : Bool) (n : Nat),
        sendEmpathicAutoResponse safety delivery customerEmail = (res, n) →
        1 ≤ n →
          isValidEmailForProduction customerEmail = true ∧
            ∃ v : SafetyValidation, safety = Except.ok v ∧ v.approved = true) := by
  intro safety delivery customerEmail
  refine ⟨?_, ?_, ?_, ?_⟩
  · intro h
    unfold sendEmpathicAutoResponse
    rw [if_pos h]
  · intro v hv hap
    unfold sendEmpathicAutoResponse
    rw [hv]
    split
    · rfl
    · dsimp only
      rw [if_pos hap]
  · intro hv
    unfold sendEmpathicAutoResponse
    rw [hv]
    split <;> rfl
  · intro res n hsend hn
    unfold sendEmpathicAutoResponse at hsend
    by_cases hval : isValidEmailForProduction customerEmail = false
    · rw [if_pos hval] at hsend
      cases hsend
      exact absurd hn (by omega)
    · have hval' : isValidEmailForProduction customerEmail = true := by
        cases h : isValidEmailForProduction customerEmail
        · exact absurd h hval
        · rfl
      rw [if_neg hval] at hsend
      cases hsafety : safety with
      | error u =>
        rw [hsafety] at hsend
        dsimp only at hsend
        cases hsend
        exact absurd hn (by omega)
      | ok v =>
        rw [hsafety] at hsend
        dsimp only at hsend
        by_cases hap : v.approved = false
        · rw [if_pos hap] at hsend
          cases hsend
          exact absurd hn (by omega)
        · have hap' : v.approved = true := by
            cases h : v.approved
            · exact absurd h hap
            · rfl
          exact ⟨hval', v, rfl, hap'⟩

/-- C7 witness: the theorem applied to a blocked recipient pattern and to
a safety-rejected content, both with a working delivery channel. -/
theorem C7_send_guarded_by_validation_witness :
    sendEmpathicAutoResponse (Except.ok { approved := true, blockReason := none })
      (Except.ok true) "test@example.com" = (false, 0) ∧
    sendEmpathicAutoResponse
      (Except.ok { approved := false, blockReason := some "moderation" })
      (Except.ok true) "customer@shop.com" = (false, 0) :=
  ⟨(C7_send_guarded_by_validation _ _ _).1 (by decide),
   (C7_send_guarded_by_validation _ _ _).2.1 _ rfl rfl⟩

/-- C8.  Whenever the underlying classification call throws — on the
grounded path (any `userId` present) as well as on the ungrounded
fallback path — `classifyEmail` returns the degraded result
category `general`, confidence 30, priority `medium` instead of
propagating the error. -/
theorem C8_classifier_failure_degraded :
    (∀ (uid : String) (fb : Except Unit RawClassification),
      classifyEmail (some uid) (Except.error ()) fb = degradedClassification) ∧
    (∀ g : Except Unit ClassificationResult,
      classifyEmail none g (Except.error ()) = degradedClassification) ∧
    degradedClassification.classification = "general" ∧
    degradedClassification.confidence = 30 ∧
    degradedClassification.priority = some Priority.medium :=
  ⟨fun _ _ => rfl, fun _ => rfl, rfl, rfl, rfl⟩

/-- C9 counterexample.  The claim says the final result is clamped to
[10, 95] for every base confidence, but when the sentiment call throws
the source returns the base confidence unchanged (auto-responder.ts
line 797): at base confidence 100 the result is 100 > 95. -/
theorem C9_unclamped_on_failure_counterexample :
    calculateSentimentAwareConfidence 100 (Except.error ()) = 100 ∧
    ¬(calculateSentimentAwareConfidence 100 (Except.error ()) ≤ 95) := by
  decide

lemma round_clamp_bounds (x : ℚ) :
    10 ≤ ((⌊max 10 (min 95 x) + 1 / 2⌋ : ℤ) : ℚ) ∧
      ((⌊max 10 (min 95 x) + 1 / 2⌋ : ℤ) : ℚ) ≤ 95 := by
  constructor
  · have h1 : (10 : ℚ) ≤ max 10 (min 95 x) := le_max_left _ _
    have h3 : (10 : ℤ) ≤ ⌊max 10 (min 95 x) + 1 / 2⌋ :=
      Int.le_floor.mpr (by push_cast; linarith)
    exact_mod_cast h3
  · have h1 : max 10 (min 95 x) ≤ 95 := by
      apply max_le
      · norm_num
      · exact min_le_left _ _
    have h2 : max 10 (min 95 x) + 1 / 2 ≤ (191 : ℚ) / 2 := by linarith
    have h3 : ⌊max 10 (min 95 x) + 1 / 2⌋ ≤ ⌊(191 : ℚ) / 2⌋ :=
      Int.floor_le_floor h2
    have h4 : (⌊(191 : ℚ) / 2⌋ : ℤ) = 95 := by norm_num
    have h5 : ⌊max 10 (min 95 x) + 1 / 2⌋ ≤ 95 := h4 ▸ h3
    exact_mod_cast h5

/-- C9 amended.  For a successfully computed sentiment the adjustment is
exactly as specified (−25 when negative score > 75 and confidence > 90,
else −15 when score > 60 and confidence > 80, else −8 when score > 45
and confidence > 70, +5 for positive sentiment with confidence > 80) and
the result is clamped to [10, 95]; when the sentiment call throws, the
base confidence is returned unchanged. -/
theorem C9_sentiment_adjustment_formula :
    (∀ (base : ℚ) (s : SentimentResult),
      calculateSentimentAwareConfidence base (Except.ok s) =
        specSentimentAdjustedConfidence base s) ∧
    (∀ (base : ℚ) (s : SentimentResult),
      10 ≤ calculateSentimentAwareConfidence base (Except.ok s) ∧
        calculateSentimentAwareConfidence base (Except.ok s) ≤ 95) ∧
    (∀ base : ℚ, calculateSentimentAwareConfidence base (Except.error ()) = base) := by
  refine ⟨?_, ?_, fun base => rfl⟩
  · intro base s
    rcases s with ⟨label, negS, confS⟩
    cases label <;>
      simp [calculateSentimentAwareConfidence, specSentimentAdjustedConfidence]
  · intro base s
    unfold calculateSentimentAwareConfidence
    dsimp only
    exact round_clamp_bounds _

/-- C10.  `calculateCosineSimilarity` signals an error on mismatched
dimensions, otherwise always returns a value; a zero `normA` or `normB`
yields 0 instead of a division by zero, and the division is performed
only with a provably non-zero denominator. -/
theorem C10_cosine_similarity_safety :
    ∀ (sqrt : ℚ → ℚ) (a b : List ℚ),
      (a.length ≠ b.length →
        calculateCosineSimilarity sqrt a b =
          Except.error "Vector dimensions must match") ∧
      (a.length = b.length →
        ∃ q : ℚ, calculateCosineSimilarity sqrt a b = Except.ok q) ∧
      (a.length = b.length →
        (sqrt (sumSquares a) = 0 ∨ sqrt (sumSquares b) = 0) →
        calculateCosineSimilarity sqrt a b = Except.ok 0) ∧
      (a.length = b.length →
        sqrt (sumSquares a) ≠ 0 → sqrt (sumSquares b) ≠ 0 →
        calculateCosineSimilarity sqrt a b =
          Except.ok (dotProduct a b /
            (sqrt (sumSquares a) * sqrt (sumSquares b))) ∧
        sqrt (sumSquares a) * sqrt (sumSquares b) ≠ 0) := by
  intro sqrt a b
  refine ⟨?_, ?_, ?_, ?_⟩
  · intro h
    unfold calculateCosineSimilarity
    rw [if_pos h]
  · intro h
    unfold calculateCosineSimilarity
    rw [if_neg (by simp [h])]
    dsimp only
    split
    · exact ⟨0, rfl⟩
    · exact ⟨_, rfl⟩
  · intro h hz
    unfold calculateCosineSimilarity
    rw [if_neg (by simp [h])]
    dsimp only
    rw [if_pos hz]
  · intro h ha hb
    unfold calculateCosineSimilarity
    rw [if_neg (by simp [h])]
    dsimp only
    rw [if_neg (by push_neg; exact ⟨ha, hb⟩)]
    exact ⟨rfl, mul_ne_zero ha hb⟩

/-- C10 witness: the theorem applied to the zero vector (zero norm, result
0 without division) and to vectors of unequal length (error). -/
theorem C10_cosine_similarity_safety_witness :
    calculateCosineSimilarity (fun x => x) [(0 : ℚ)] [(0 : ℚ)] = Except.ok 0 ∧
    calculateCosineSimilarity (fun x => x) [(1 : ℚ)] [] =
      Except.error "Vector dimensions must match" :=
  ⟨(C10_cosine_similarity_safety (fun x => x) [0] [0]).2.2.1 rfl
      (Or.inl (by norm_num [sumSquares])),
   (C10_cosine_similarity_safety (fun x => x) [1] []).1 (by decide)⟩

end CSAuto
